import Mathlib

/-!
Shallow embedding of the UserManagement authentication and credential-lifecycle
subsystem (auth middleware, auth controller, User model hooks, request-logging
middleware), together with theorems settling the frozen claims about it.

Conventions of the embedding:
- JavaScript timestamps in milliseconds are `Nat` values suffixed `Ms`; JWT
  issued-at values are whole seconds (`Nat` suffixed `Sec` or named `iat`).
- Sequelize `null`/absent attributes are `Option.none`.
- Fallible externals (email delivery) are passed as an explicit outcome flag.
- Cryptographic primitives (sha256, bcrypt) are modelled by deterministic,
  injective executable stand-ins; only their match semantics matter to the
  claims, never their irreversibility.
-/

namespace UserMgmt

/-- Model of JavaScript String.prototype.toLowerCase as the controllers apply
it to emails: lowercase every character. -/
def jsToLower (s : String) : String :=
  String.mk (s.data.map Char.toLower)

/-- Model of the sha256 hex digest used by the reset-token flow
(models/user.model.js createPasswordResetToken and the auth controller's
resetPassword): a deterministic, injective, executable stand-in. -/
def sha256Hex (s : String) : String :=
  "sha256." ++ s

/-- Model of bcrypt.hash at a given cost factor (models/user.model.js hooks hash
with cost 12): a deterministic stand-in recording the cost and the input.
It is never equal to its input (it is strictly longer). -/
def bcryptHash (plaintext : String) (cost : Nat) : String :=
  "bcrypt." ++ toString cost ++ "." ++ plaintext

/-- Model of bcrypt.compare (User.prototype.correctPassword): a candidate
matches a stored digest exactly when the digest is the hash of the candidate. -/
def bcryptCompare (candidate digest : String) : Bool :=
  digest == bcryptHash candidate 12

/-- A row of the Users table (models/user.model.js). `password` stores the
bcrypt digest; it is `Option` because the in-memory object can have the
attribute absent (default scope excludes it, createSendToken deletes it),
though the column itself is NOT NULL. `deletedAt` is the paranoid-mode
soft-delete marker. Timestamps are epoch milliseconds. -/
structure Account where
  id : String
  firstName : String
  lastName : String
  email : String
  password : Option String
  role : String
  isActive : Bool
  lastLogin : Option Nat
  passwordChangedAt : Option Nat
  passwordResetToken : Option String
  passwordResetExpires : Option Nat
  deletedAt : Option Nat
  deriving Repr, DecidableEq

/-- The Users table. -/
abbrev Store := List Account

/-- User.findByPk under the paranoid default scope: soft-deleted rows are
invisible. -/
def findByPk (st : Store) (id : String) : Option Account :=
  (st.filter (fun a => a.deletedAt.isNone)).find? (fun a => a.id == id)

/-- User.findOne where email equals the given string exactly, under the
paranoid default scope. -/
def findOneByEmail (st : Store) (email : String) : Option Account :=
  (st.filter (fun a => a.deletedAt.isNone)).find? (fun a => a.email == email)

/-- Persist an updated row: every row with the account's id is replaced
(instance.save persists the mutated fields of that row). -/
def saveAccount (st : Store) (u : Account) : Store :=
  st.map (fun a => if a.id == u.id then u else a)

/-- The model's beforeCreate hook (models/user.model.js): when the password
attribute is truthy (present and nonempty), replace it by its bcrypt hash. -/
def beforeCreate (u : Account) : Account :=
  match u.password with
  | some p => if p = "" then u else { u with password := some (bcryptHash p 12) }
  | none => u

/-- The model's beforeUpdate hook (models/user.model.js): when the password
attribute changed in this update, re-hash it and stamp passwordChangedAt with
the current time. Every embedded flow that changes the password first sets it
to a plaintext string, so the hash is applied to that plaintext. -/
def beforeUpdate (changedPassword : Bool) (u : Account) (nowMs : Nat) : Account :=
  if changedPassword then
    { u with password := u.password.map (fun p => bcryptHash p 12),
             passwordChangedAt := some nowMs }
  else u

/-- User.prototype.correctPassword lifted to the optional stored attribute: the
withPassword scope always includes the NOT NULL password column, so a row read
for login always carries some digest; an absent attribute never matches. -/
def correctPassword (candidate : String) (stored : Option String) : Bool :=
  match stored with
  | some digest => bcryptCompare candidate digest
  | none => false

/-- User.prototype.changedPasswordAfter (models/user.model.js): with a
passwordChangedAt on record, the change time in milliseconds is truncated to
whole seconds (parseInt of getTime()/1000) and the JWT issued-at (already whole
seconds) must be strictly below it for the password to count as changed after
the token. Without a passwordChangedAt it is always false. -/
def changedPasswordAfter (a : Account) (jwtTimestamp : Nat) : Bool :=
  match a.passwordChangedAt with
  | some ms => decide (jwtTimestamp < ms / 1000)
  | none => false

/-- Payload of a verified JWT: subject id and issued-at in whole seconds. -/
structure JwtPayload where
  id : String
  iat : Nat
  deriving Repr, DecidableEq

/-- A bearer token as the Token Service sees it: either signed with the process
secret (carrying its payload and expiry second) or malformed/forged. -/
inductive JwtToken where
  | signed (payload : JwtPayload) (expSec : Nat)
  | malformed
  deriving Repr, DecidableEq

/-- jwt.sign({id}, secret, {expiresIn}) (auth controller signToken): a signed
token whose issued-at is now and whose expiry is now plus the configured
lifetime. -/
def signToken (id : String) (nowSec lifetimeSec : Nat) : JwtToken :=
  .signed ⟨id, nowSec⟩ (nowSec + lifetimeSec)

/-- jwt.verify: a malformed token or one whose lifetime has elapsed fails
(the middleware's catch treats the throw as unauthenticated); otherwise the
payload is returned. -/
def jwtVerify (tok : JwtToken) (nowSec : Nat) : Option JwtPayload :=
  match tok with
  | .signed payload expSec => if nowSec < expSec then some payload else none
  | .malformed => none

/-- The token-bearing parts of an inbound request as the auth middleware reads
them: a token carried in an `Authorization: Bearer` header, and a token carried
in the `jwt` cookie. -/
structure AuthRequest where
  headerBearer : Option JwtToken
  cookieJwt : Option JwtToken
  deriving Repr, DecidableEq

/-- Step 1 of protect (middleware/auth.middleware.js lines 10-18): prefer the
Authorization Bearer header, fall back to the jwt cookie. -/
def extractToken (req : AuthRequest) : Option JwtToken :=
  match req.headerBearer with
  | some t => some t
  | none => req.cookieJwt

/-- Terminal state of the strict auth gate: either the account is attached to
req.user and res.locals.user, or the request is aborted with a status and
message. -/
inductive GateResult where
  | authenticated (user : Account)
  | rejected (status : Nat) (message : String)
  deriving Repr, DecidableEq

/-- The strict auth gate `protect` (middleware/auth.middleware.js): extract a
token, verify it, load the account, reject a stale session, else attach the
account. A jwt.verify throw is caught and mapped to the catch-all 401. -/
def protect (st : Store) (req : AuthRequest) (nowSec : Nat) : GateResult :=
  match extractToken req with
  | none =>
    .rejected 401 "You are not logged in! Please log in to get access."
  | some tok =>
    match jwtVerify tok nowSec with
    | none =>
      .rejected 401 "Invalid token or session expired. Please log in again."
    | some payload =>
      match findByPk st payload.id with
      | none =>
        .rejected 401 "The user belonging to this token no longer exists."
      | some user =>
        if changedPasswordAfter user payload.iat then
          .rejected 401 "User recently changed password! Please log in again."
        else
          .authenticated user

/-- The lenient gate `isLoggedIn` (middleware/auth.middleware.js): it looks
only at the jwt cookie, never at the Authorization header; any failure falls
through to the unauthenticated continuation (result none); on success the
account is attached to res.locals.user (result some). -/
def isLoggedIn (st : Store) (req : AuthRequest) (nowSec : Nat) : Option Account :=
  match req.cookieJwt with
  | none => none
  | some tok =>
    match jwtVerify tok nowSec with
    | none => none
    | some payload =>
      match findByPk st payload.id with
      | none => none
      | some user =>
        if changedPasswordAfter user payload.iat then none
        else some user

/-- Outcome of the role-restriction middleware: grant (next()), a 403
rejection, or a thrown TypeError (reading .role of an undefined req.user),
which Express hands to the error handler — never a grant. -/
inductive RestrictResult where
  | granted
  | forbidden (status : Nat) (message : String)
  | thrown (message : String)
  deriving Repr, DecidableEq

/-- restrictTo(...roles) (middleware/auth.middleware.js): with no authenticated
identity attached, evaluating req.user.role throws; with one attached, a role
outside the allowed list is rejected 403, else the request proceeds. -/
def restrictTo (roles : List String) (user : Option Account) : RestrictResult :=
  match user with
  | none => .thrown "Cannot read role of undefined req.user"
  | some u =>
    if roles.contains u.role then .granted
    else .forbidden 403 "You do not have permission to perform this action"

/-- An HTTP response from the auth controller: a token-bearing success body
(status, token, user with the password attribute deleted), a plain success
message, or an error handed to next() with its status and message. -/
inductive Response where
  | tokenSuccess (status : Nat) (token : JwtToken) (user : Account)
  | ok (status : Nat) (note : String)
  | error (status : Nat) (message : String)
  deriving Repr, DecidableEq

/-- Status code of a response. -/
def Response.status : Response → Nat
  | .tokenSuccess s _ _ => s
  | .ok s _ => s
  | .error s _ => s

/-- createSendToken (auth controller): sign a token for the user's id, delete
the password attribute from the user object, respond with the given status. -/
def createSendToken (user : Account) (statusCode nowSec lifetimeSec : Nat) : Response :=
  .tokenSuccess statusCode (signToken user.id nowSec lifetimeSec)
    { user with password := none }

/-- Body of a registration request after the validation middleware ran
(firstName, lastName, email, password, optional role). -/
structure RegisterBody where
  firstName : String
  lastName : String
  email : String
  password : String
  role : Option String
  deriving Repr, DecidableEq

/-- JavaScript `role || 'user'` (register and createUser): an absent or falsy
(empty) role defaults to "user". -/
def jsRoleOrUser (role : Option String) : String :=
  match role with
  | some r => if r = "" then "user" else r
  | none => "user"

/-- User.create at the database level: the unique index on email spans all
rows (soft-deleted ones included), so a duplicate email makes the insert throw
(none); otherwise the row is appended. -/
def createRow (st : Store) (u : Account) : Option Store :=
  if st.any (fun a => a.email == u.email) then none else some (st ++ [u])

/-- register (auth controller lines 32-68): on validation errors respond 400;
if a non-deleted row already has exactly this email, 409 Conflict; otherwise
create the row (email lowercased, beforeCreate hashes the password, role
defaults to user) and answer 201 via createSendToken. A unique-index throw
from the insert is forwarded to next(error) as a status-less error, which the
global handler maps to 500. -/
def register (st : Store) (body : RegisterBody) (validationOk : Bool)
    (newId : String) (nowSec lifetimeSec : Nat) : Response × Store :=
  if ¬ validationOk then (.error 400 "Validation failed", st)
  else
    match findOneByEmail st body.email with
    | some _ => (.error 409 "Email already in use", st)
    | none =>
      let newUser := beforeCreate
        { id := newId, firstName := body.firstName, lastName := body.lastName,
          email := jsToLower body.email, password := some body.password,
          role := jsRoleOrUser body.role, isActive := true, lastLogin := none,
          passwordChangedAt := none, passwordResetToken := none,
          passwordResetExpires := none, deletedAt := none }
      match createRow st newUser with
      | none => (.error 500 "Validation error", st)
      | some st1 => (createSendToken newUser 201 nowSec lifetimeSec, st1)

/-- login (auth controller lines 73-111): missing email or password is a 400;
the lookup lowercases the email and reads the password column; an absent user
and a wrong password produce the very same 401 error; a deactivated account is
rejected 403; otherwise lastLogin is stamped, the row saved (the password did
not change, so the beforeUpdate hook is a no-op), and a token issued. -/
def login (st : Store) (email password : String)
    (nowMs nowSec lifetimeSec : Nat) : Response × Store :=
  if email = "" ∨ password = "" then
    (.error 400 "Please provide email and password", st)
  else
    match findOneByEmail st (jsToLower email) with
    | none => (.error 401 "Incorrect email or password", st)
    | some user =>
      if ¬ correctPassword password user.password then
        (.error 401 "Incorrect email or password", st)
      else if ¬ user.isActive then
        (.error 403 "Your account has been deactivated", st)
      else
        let user1 := { user with lastLogin := some nowMs }
        (createSendToken user1 200 nowSec lifetimeSec, saveAccount st user1)

/-- User.prototype.createPasswordResetToken (models/user.model.js): from fresh
randomness, store the sha256 digest of the plaintext secret and an absolute
expiry of now plus ten minutes; the plaintext secret is returned. -/
def createPasswordResetToken (u : Account) (randomHex : String) (nowMs : Nat) :
    Account × String :=
  ({ u with passwordResetToken := some (sha256Hex randomHex),
            passwordResetExpires := some (nowMs + 10 * 60 * 1000) }, randomHex)

/-- forgotPassword (auth controller lines 116-158): unknown email is a 404;
otherwise the reset digest and expiry are stored and the email sent
(deliveryOk is the delivery outcome); on delivery failure both reset fields
are set back to undefined, the row saved again, and a 500 surfaced. -/
def forgotPassword (st : Store) (email randomHex : String) (nowMs : Nat)
    (deliveryOk : Bool) : Response × Store :=
  match findOneByEmail st email with
  | none => (.error 404 "There is no user with that email address.", st)
  | some user =>
    let tokenized := createPasswordResetToken user randomHex nowMs
    let st1 := saveAccount st tokenized.1
    if deliveryOk then (.ok 200 "Token sent to email!", st1)
    else
      let rolledBack := { tokenized.1 with passwordResetToken := none,
                                           passwordResetExpires := none }
      (.error 500 "There was an error sending the email. Try again later!",
       saveAccount st1 rolledBack)

/-- Body of a reset-password request: the plaintext secret from the URL and
the new password (validation already checked it and its confirmation). -/
structure ResetRequest where
  token : String
  password : String
  deriving Repr, DecidableEq

/-- The identifiers bound at module scope of the auth controller
(controllers/auth.controller.js): its six require lines plus the two local
function declarations. Neither `crypto` nor `Op` is among them. -/
def authControllerBindings : List String :=
  ["jwt", "StatusCodes", "validationResult", "User", "AppError", "sendEmail",
   "signToken", "createSendToken"]

/-- The body of resetPassword as its statements are written (auth controller
lines 163-194), assuming `crypto` and `Op` resolve: recompute the sha256
digest of the URL secret, find a row whose stored digest equals it and whose
expiry is strictly later than now; none is a 400; otherwise set the new
password, null both reset fields, save (the beforeUpdate hook re-hashes and
stamps passwordChangedAt) and answer 200 via createSendToken. -/
def resetPasswordBody (st : Store) (req : ResetRequest)
    (nowMs nowSec lifetimeSec : Nat) : Response × Store :=
  let hashedToken := sha256Hex req.token
  match (st.filter (fun a => a.deletedAt.isNone)).find?
      (fun a => a.passwordResetToken == some hashedToken &&
                (match a.passwordResetExpires with
                 | some e => decide (nowMs < e)
                 | none => false)) with
  | none => (.error 400 "Token is invalid or has expired", st)
  | some user =>
    let updated := beforeUpdate true
      { user with password := some req.password,
                  passwordResetToken := none, passwordResetExpires := none }
      nowMs
    (createSendToken updated 200 nowSec lifetimeSec, saveAccount st updated)

/-- resetPassword as the module actually executes (auth controller lines
163-194): its first statement evaluates `crypto.createHash`, but `crypto` is a
free identifier — it is not among the module's bindings — so evaluation throws
before anything else runs, the surrounding catch forwards the status-less
error to next, and the global error handler answers 500. Were `crypto` (and
`Op`) in scope, the body would behave as resetPasswordBody. -/
def resetPassword (st : Store) (req : ResetRequest)
    (nowMs nowSec lifetimeSec : Nat) : Response × Store :=
  if authControllerBindings.contains "crypto" then
    resetPasswordBody st req nowMs nowSec lifetimeSec
  else
    (.error 500 "crypto is not defined", st)

/-- An inbound HTTP request as it moves through the Express middleware chain.
`payload` is the fields carried on the wire; `body` is the req.body attribute,
which is absent (undefined) until express.json()/express.urlencoded() parses
the payload into it. -/
structure HttpRequest where
  method : String
  originalUrl : String
  query : List (String × String)
  payload : List (String × String)
  body : Option (List (String × String))
  ip : String
  deriving Repr, DecidableEq

/-- A record written to the winston log. The body metadata is Option-valued:
an undefined req.body is dropped by both configured formats (JSON.stringify
omits undefined values and the json format does the same). -/
structure LogEntry where
  message : String
  metaQuery : List (String × String)
  metaBody : Option (List (String × String))
  metaIp : String
  deriving Repr, DecidableEq

/-- The request-logging middleware (app.js): every request is logged at info
level with its method and URL, and with the query, the req.body attribute as
it stands at this point of the chain, and the client ip as metadata. In
app.js this middleware is registered BEFORE express.json() and
express.urlencoded(), so it sees req.body still unset. -/
def logRequest (req : HttpRequest) : LogEntry :=
  { message := req.method ++ " " ++ req.originalUrl,
    metaQuery := req.query, metaBody := req.body, metaIp := req.ip }

/-- express.json()/express.urlencoded() (app.js, registered after the logging
middleware): populate the req.body attribute from the wire payload. -/
def parseBody (req : HttpRequest) : HttpRequest :=
  { req with body := some req.payload }

/-- A request as it first enters the app's middleware chain: no body parser
has run yet, so the req.body attribute is unset. -/
def incomingRequest (method originalUrl : String)
    (query payload : List (String × String)) (ip : String) : HttpRequest :=
  { method := method, originalUrl := originalUrl, query := query,
    payload := payload, body := none, ip := ip }

/-- A concrete account used to instantiate witnesses and counterexamples. -/
def baseAccount : Account :=
  { id := "u1", firstName := "Ann", lastName := "Lee", email := "a@x.com",
    password := some (bcryptHash "Secret1!" 12), role := "user",
    isActive := true, lastLogin := none, passwordChangedAt := none,
    passwordResetToken := none, passwordResetExpires := none, deletedAt := none }

/-- A concrete account holding an outstanding, unexpired reset digest for the
plaintext secret "deadbeef". -/
def resetDemoAccount : Account :=
  { baseAccount with passwordResetToken := some (sha256Hex "deadbeef"),
                     passwordResetExpires := some 600000 }

/-- A concrete account whose password was last changed at 5000 ms. -/
def staleAccount : Account :=
  { baseAccount with passwordChangedAt := some 5000 }

/-- A signed token for u1 issued at second 3, expiring at second 100. -/
def staleToken : JwtToken :=
  .signed ⟨"u1", 3⟩ 100

/-- A request carrying staleToken in the Authorization Bearer header only. -/
def headerOnlyRequest : AuthRequest :=
  { headerBearer := some staleToken, cookieJwt := none }

/-- A request carrying staleToken in the jwt cookie only. -/
def cookieOnlyRequest : AuthRequest :=
  { headerBearer := none, cookieJwt := some staleToken }

/-- Membership in a saved store: every element is the saved row or keeps an id
different from it. -/
theorem mem_saveAccount {st : Store} {u a : Account} (ha : a ∈ saveAccount st u) :
    a = u ∨ a.id ≠ u.id := by
  simp only [saveAccount, List.mem_map] at ha
  obtain ⟨b, hb, hab⟩ := ha
  by_cases h : b.id = u.id
  · left
    rw [← hab]
    simp [h]
  · right
    rw [← hab]
    simp [h]

/-- A deactivated account with a known password. -/
def deactivatedAccount : Account :=
  { baseAccount with isActive := false }

/-- A registration body with no explicit role. -/
def regBody : RegisterBody :=
  { firstName := "Jo", lastName := "Doe", email := "a@x.com",
    password := "Abc12345!", role := none }

/-- A soft-deleted account (paranoid destroy) still holding its email. -/
def softDeletedAccount : Account :=
  { baseAccount with deletedAt := some 42 }

/-- C1: the reset-password operation is claimed to find the account whose
stored digest equals the recomputed sha256 digest of the URL secret with
unelapsed expiry, answering 400 when none matches and 200 with a fresh token
otherwise. The auth controller, however, never brings crypto (or Op) into
module scope, so the operation's first statement throws on every request and
the global handler answers 500 — evaluated here at a store holding a matching,
unexpired digest for the secret "deadbeef", an input on which the statements
of the function body (resetPasswordBody) would have answered 200. -/
theorem resetPassword_missing_crypto_throws :
    resetPassword [resetDemoAccount] ⟨"deadbeef", "NewPass1!"⟩ 0 0 3600 =
      (Response.error 500 "crypto is not defined", [resetDemoAccount]) ∧
    (resetPasswordBody [resetDemoAccount] ⟨"deadbeef", "NewPass1!"⟩ 0 0 3600).1.status
      = 200 := by
  decide

/-- C2: the raw plaintext password is never persisted nor logged. The
request-logging middleware is registered before the body parsers, so for
every request entering the chain the logged metadata carries no body at all —
in particular no plaintext password, whatever the wire payload holds — and
the only writes of a password to the store go through the model's
beforeCreate/beforeUpdate hooks, which store the bcrypt hash, never equal to
the plaintext. -/
theorem password_never_persisted_nor_logged (u : Account) (p : String)
    (nowMs : Nat) (method originalUrl ip : String)
    (query payload : List (String × String))
    (hp : u.password = some p) (hne : p ≠ "") :
    (logRequest (incomingRequest method originalUrl query payload ip)).metaBody
      = none ∧
    (beforeCreate u).password = some (bcryptHash p 12) ∧
    (beforeUpdate true u nowMs).password = some (bcryptHash p 12) ∧
    bcryptHash p 12 ≠ p := by
  refine ⟨rfl, ?_, ?_, ?_⟩
  · simp [beforeCreate, hp, hne]
  · simp [beforeUpdate, hp]
  · intro hEq
    have hlen := congrArg String.length hEq
    simp only [bcryptHash, String.length_append] at hlen
    have h7 : ("bcrypt." : String).length = 7 := by decide
    have h12 : (toString (12 : Nat)).length = 2 := by decide
    have h1 : ("." : String).length = 1 := by decide
    rw [h7, h12, h1] at hlen
    omega

/-- Witness for C2: a login request whose wire payload carries the plaintext
password is logged without any body metadata, and a concrete account stores
only the hash. -/
theorem password_never_persisted_nor_logged_witness :
    (logRequest (incomingRequest "POST" "/api/auth/login" []
        [("email", "a@x.com"), ("password", "Secret1!")] "127.0.0.1")).metaBody
      = none ∧
    (beforeCreate { baseAccount with password := some "Secret1!" }).password =
      some (bcryptHash "Secret1!" 12) ∧
    (beforeUpdate true { baseAccount with password := some "Secret1!" } 5).password =
      some (bcryptHash "Secret1!" 12) ∧
    bcryptHash "Secret1!" 12 ≠ "Secret1!" :=
  password_never_persisted_nor_logged { baseAccount with password := some "Secret1!" }
    "Secret1!" 5 "POST" "/api/auth/login" "127.0.0.1" []
    [("email", "a@x.com"), ("password", "Secret1!")] (by rfl) (by decide)

/-- C3: when the account exists and email delivery fails, forgot-password
surfaces the 500 delivery error and the final store has both reset fields of
that account cleared — no valid reset token remains outstanding. -/
theorem forgotPassword_delivery_failure_rollback (st : Store)
    (email randomHex : String) (nowMs : Nat) (user : Account)
    (hFind : findOneByEmail st email = some user) :
    (forgotPassword st email randomHex nowMs false).1 =
      Response.error 500 "There was an error sending the email. Try again later!" ∧
    ∀ a ∈ (forgotPassword st email randomHex nowMs false).2, a.id = user.id →
      a.passwordResetToken = none ∧ a.passwordResetExpires = none := by
  constructor
  · simp [forgotPassword, hFind]
  · intro a ha hid
    simp only [forgotPassword, hFind, createPasswordResetToken] at ha
    rcases mem_saveAccount ha with h2 | h2
    · rw [h2]
      simp
    · exact absurd hid h2

/-- Witness for C3 at a concrete one-account store. -/
theorem forgotPassword_delivery_failure_rollback_witness :
    (forgotPassword [baseAccount] "a@x.com" "rnd" 1000 false).1 =
      Response.error 500 "There was an error sending the email. Try again later!" ∧
    ∀ a ∈ (forgotPassword [baseAccount] "a@x.com" "rnd" 1000 false).2,
      a.id = baseAccount.id →
      a.passwordResetToken = none ∧ a.passwordResetExpires = none :=
  forgotPassword_delivery_failure_rollback [baseAccount] "a@x.com" "rnd" 1000
    baseAccount (by decide)

/-- C4: once a token is extracted, verified and its account loaded, the gate
authenticates exactly when the token's issue time (whole seconds, as carried
in iat) is at least the account's passwordChangedAt truncated to whole
seconds; a token issued strictly before that second is always rejected 401
as a stale session. -/
theorem protect_stale_session (st : Store) (req : AuthRequest) (nowSec : Nat)
    (tok : JwtToken) (payload : JwtPayload) (user : Account) (changedMs : Nat)
    (hTok : extractToken req = some tok)
    (hVer : jwtVerify tok nowSec = some payload)
    (hUser : findByPk st payload.id = some user)
    (hChanged : user.passwordChangedAt = some changedMs) :
    (protect st req nowSec = .authenticated user ↔
      changedMs / 1000 ≤ payload.iat) ∧
    (payload.iat < changedMs / 1000 →
      protect st req nowSec =
        .rejected 401 "User recently changed password! Please log in again.") := by
  have hgate : protect st req nowSec =
      if payload.iat < changedMs / 1000 then
        GateResult.rejected 401 "User recently changed password! Please log in again."
      else
        GateResult.authenticated user := by
    simp [protect, hTok, hVer, hUser, changedPasswordAfter, hChanged]
  constructor
  · rw [hgate]
    by_cases h : payload.iat < changedMs / 1000
    · rw [if_pos h]
      simp
      omega
    · rw [if_neg h]
      simp
      omega
  · intro h
    rw [hgate, if_pos h]

/-- Witness for C4: a token issued at second 3 against a password change at
5000 ms (second 5) is rejected as a stale session. -/
theorem protect_stale_session_witness :
    (protect [staleAccount] headerOnlyRequest 10 = .authenticated staleAccount ↔
      5000 / 1000 ≤ (3 : Nat)) ∧
    ((3 : Nat) < 5000 / 1000 →
      protect [staleAccount] headerOnlyRequest 10 =
        .rejected 401 "User recently changed password! Please log in again.") :=
  protect_stale_session [staleAccount] headerOnlyRequest 10 staleToken ⟨"u1", 3⟩
    staleAccount 5000 (by rfl) (by decide) (by decide) (by rfl)

/-- C5: with email and password supplied, an unknown email and a known email
with a non-matching password produce the very same 401 response value — same
error kind, same message, same status, store untouched. -/
theorem login_indistinguishable_errors (st : Store) (email password : String)
    (nowMs nowSec lifetimeSec : Nat) (hE : email ≠ "") (hP : password ≠ "") :
    (findOneByEmail st (jsToLower email) = none →
      login st email password nowMs nowSec lifetimeSec =
        (Response.error 401 "Incorrect email or password", st)) ∧
    (∀ user, findOneByEmail st (jsToLower email) = some user →
      correctPassword password user.password = false →
      login st email password nowMs nowSec lifetimeSec =
        (Response.error 401 "Incorrect email or password", st)) := by
  have hcond : ¬ (email = "" ∨ password = "") := by
    push_neg
    exact ⟨hE, hP⟩
  constructor
  · intro hNone
    simp [login, hcond, hNone]
  · intro user hSome hPw
    simp [login, hcond, hSome, hPw]

/-- Witness for C5: both failure shapes at concrete inputs yield the identical
response. -/
theorem login_indistinguishable_errors_witness :
    login [baseAccount] "b@x.com" "pw" 0 0 3600 =
      (Response.error 401 "Incorrect email or password", [baseAccount]) ∧
    login [baseAccount] "a@x.com" "wrong" 0 0 3600 =
      (Response.error 401 "Incorrect email or password", [baseAccount]) :=
  ⟨(login_indistinguishable_errors [baseAccount] "b@x.com" "pw" 0 0 3600
      (by decide) (by decide)).1 (by decide),
   (login_indistinguishable_errors [baseAccount] "a@x.com" "wrong" 0 0 3600
      (by decide) (by decide)).2 baseAccount (by decide) (by decide)⟩

/-- C6 counterexample: logging in with correct credentials against a
deactivated account answers 403 Forbidden, not the claimed 401. -/
theorem login_deactivated_cex :
    (login [deactivatedAccount] "a@x.com" "Secret1!" 0 0 3600).1 =
      Response.error 403 "Your account has been deactivated" ∧
    (login [deactivatedAccount] "a@x.com" "Secret1!" 0 0 3600).1.status ≠ 401 := by
  decide

/-- C6 (amended): a login with correct credentials against a deactivated
account is rejected with 403 Forbidden ("Your account has been deactivated"),
a 4xx of a different status than the 401 used for bad credentials, and never
a 200 success. -/
theorem login_deactivated_forbidden (st : Store) (email password : String)
    (nowMs nowSec lifetimeSec : Nat) (user : Account)
    (hE : email ≠ "") (hP : password ≠ "")
    (hFind : findOneByEmail st (jsToLower email) = some user)
    (hPw : correctPassword password user.password = true)
    (hInactive : user.isActive = false) :
    login st email password nowMs nowSec lifetimeSec =
      (Response.error 403 "Your account has been deactivated", st) := by
  have hcond : ¬ (email = "" ∨ password = "") := by
    push_neg
    exact ⟨hE, hP⟩
  simp [login, hcond, hFind, hPw, hInactive]

/-- Witness for the amended C6 at a concrete deactivated account. -/
theorem login_deactivated_forbidden_witness :
    login [deactivatedAccount] "a@x.com" "Secret1!" 7 8 3600 =
      (Response.error 403 "Your account has been deactivated", [deactivatedAccount]) :=
  login_deactivated_forbidden [deactivatedAccount] "a@x.com" "Secret1!" 7 8 3600
    deactivatedAccount (by decide) (by decide) (by decide) (by decide) (by decide)

/-- C7 counterexample: a registration whose email matches only a soft-deleted
row — reachable because the admin DELETE route paranoid-destroys, leaving the
row and its email in the table — passes the controller's default-scope
duplicate check but violates the database unique index on insert, so the code
answers 500, neither the claimed 409 nor the claimed 201, and creates
nothing. -/
theorem register_soft_deleted_email_cex :
    (register [softDeletedAccount] regBody true "u2" 0 3600).1 =
      Response.error 500 "Validation error" ∧
    (register [softDeletedAccount] regBody true "u2" 0 3600).1.status ≠ 409 ∧
    (register [softDeletedAccount] regBody true "u2" 0 3600).1.status ≠ 201 ∧
    (register [softDeletedAccount] regBody true "u2" 0 3600).2 =
      [softDeletedAccount] := by
  decide

/-- C7 (amended): for a validated registration request (the validation
middleware has lowercased the email): an email already on a non-deleted
account yields 409 and leaves the store unchanged; an email carried by no row
at all appends exactly one account with the lowercased email, the bcrypt hash
of the password and the defaulted role, answering 201 with a signed token and
the account with its password attribute deleted; but an email carried only by
soft-deleted rows passes the duplicate check and then violates the database
unique index, so that request fails 500 and creates nothing; an absent role
defaults to "user". -/
theorem register_outcomes (st : Store) (body : RegisterBody)
    (newId : String) (nowSec lifetimeSec : Nat)
    (hLower : jsToLower body.email = body.email) (hPw : body.password ≠ "") :
    ((∃ u, findOneByEmail st body.email = some u) →
      register st body true newId nowSec lifetimeSec =
        (Response.error 409 "Email already in use", st)) ∧
    (st.any (fun a => a.email == body.email) = false →
      register st body true newId nowSec lifetimeSec =
        (Response.tokenSuccess 201 (signToken newId nowSec lifetimeSec)
          { id := newId, firstName := body.firstName, lastName := body.lastName,
            email := body.email, password := none, role := jsRoleOrUser body.role,
            isActive := true, lastLogin := none, passwordChangedAt := none,
            passwordResetToken := none, passwordResetExpires := none,
            deletedAt := none },
         st ++ [{ id := newId, firstName := body.firstName,
                  lastName := body.lastName, email := body.email,
                  password := some (bcryptHash body.password 12),
                  role := jsRoleOrUser body.role, isActive := true,
                  lastLogin := none, passwordChangedAt := none,
                  passwordResetToken := none, passwordResetExpires := none,
                  deletedAt := none }])) ∧
    (findOneByEmail st body.email = none →
      st.any (fun a => a.email == body.email) = true →
      register st body true newId nowSec lifetimeSec =
        (Response.error 500 "Validation error", st)) ∧
    (body.role = none → jsRoleOrUser body.role = "user") := by
  refine ⟨?_, ?_, ?_, ?_⟩
  · rintro ⟨u, hu⟩
    simp [register, hu]
  · intro hAny
    have hNone : findOneByEmail st body.email = none := by
      simp only [findOneByEmail]
      apply List.find?_eq_none.mpr
      intro a ha
      rw [List.any_eq_false] at hAny
      exact hAny a (List.mem_of_mem_filter ha)
    simp [register, hNone, beforeCreate, hPw, createRow, hLower, hAny,
          createSendToken]
  · intro hNone hAny
    simp [register, hNone, beforeCreate, hPw, createRow, hLower, hAny]
  · intro h
    simp [jsRoleOrUser, h]

/-- Witness for the amended C7: a duplicate registration answers 409 and
changes nothing; the same registration against an empty store creates the
account; against a store holding only a soft-deleted row with that email it
fails 500 and changes nothing. -/
theorem register_outcomes_witness :
    register [baseAccount] regBody true "u2" 0 3600 =
      (Response.error 409 "Email already in use", [baseAccount]) ∧
    register [] regBody true "u2" 0 3600 =
      (Response.tokenSuccess 201 (signToken "u2" 0 3600)
        { id := "u2", firstName := "Jo", lastName := "Doe", email := "a@x.com",
          password := none, role := jsRoleOrUser none, isActive := true,
          lastLogin := none, passwordChangedAt := none,
          passwordResetToken := none, passwordResetExpires := none,
          deletedAt := none },
       [{ id := "u2", firstName := "Jo", lastName := "Doe", email := "a@x.com",
          password := some (bcryptHash "Abc12345!" 12),
          role := jsRoleOrUser none, isActive := true, lastLogin := none,
          passwordChangedAt := none, passwordResetToken := none,
          passwordResetExpires := none, deletedAt := none }]) ∧
    register [softDeletedAccount] regBody true "u2" 0 3600 =
      (Response.error 500 "Validation error", [softDeletedAccount]) :=
  ⟨(register_outcomes [baseAccount] regBody "u2" 0 3600
      (by decide) (by decide)).1 ⟨baseAccount, by decide⟩,
   (register_outcomes [] regBody "u2" 0 3600
      (by decide) (by decide)).2.1 (by decide),
   (register_outcomes [softDeletedAccount] regBody "u2" 0 3600
      (by decide) (by decide)).2.2.1 (by decide) (by decide)⟩

/-- C8: with an authenticated identity attached whose role is outside the
allowed set, the role-restriction middleware rejects 403 Forbidden; with no
identity attached it fails closed — reading the role of the absent identity
throws, so the request is never granted. -/
theorem restrictTo_fails_closed (roles : List String) (u : Account)
    (hRole : u.role ∉ roles) :
    restrictTo roles (some u) =
      .forbidden 403 "You do not have permission to perform this action" ∧
    ∀ rs : List String, restrictTo rs none ≠ .granted := by
  constructor
  · simp [restrictTo, hRole]
  · intro rs
    simp [restrictTo]

/-- Witness for C8: a user-role account against the admin-only list. -/
theorem restrictTo_fails_closed_witness :
    restrictTo ["admin"] (some baseAccount) =
      .forbidden 403 "You do not have permission to perform this action" ∧
    ∀ rs : List String, restrictTo rs none ≠ .granted :=
  restrictTo_fails_closed ["admin"] baseAccount (by decide)

/-- C9 counterexample: a request carrying a valid token only in the
Authorization Bearer header is authenticated by the strict gate, yet the
lenient variant attaches nothing — it never looks at the header, so the two
variants do not perform the same extraction step nor attach the same account
when the strict gate's steps all succeed. -/
theorem isLoggedIn_ignores_bearer_header_cex :
    protect [baseAccount] headerOnlyRequest 10 = .authenticated baseAccount ∧
    isLoggedIn [baseAccount] headerOnlyRequest 10 = none := by
  decide

/-- C9 (amended): on requests without an Authorization Bearer header — so the
only token source is the jwt cookie, the sole one the lenient variant reads —
the lenient variant agrees step by step with the strict gate: it attaches
exactly the account the strict gate authenticates, and attaches nothing
whenever the strict gate rejects at any step. -/
theorem isLoggedIn_cookie_matches_protect (st : Store) (req : AuthRequest)
    (nowSec : Nat) (hNoHeader : req.headerBearer = none) :
    isLoggedIn st req nowSec =
      match protect st req nowSec with
      | .authenticated u => some u
      | .rejected _ _ => none := by
  have hext : extractToken req = req.cookieJwt := by
    simp [extractToken, hNoHeader]
  unfold isLoggedIn protect
  rw [hext]
  cases hc : req.cookieJwt with
  | none => simp
  | some tok =>
    cases hv : jwtVerify tok nowSec with
    | none => simp [hv]
    | some payload =>
      cases hu : findByPk st payload.id with
      | none => simp [hv, hu]
      | some user =>
        by_cases hch : changedPasswordAfter user payload.iat = true
        · simp [hv, hu, hch]
        · simp [hv, hu, hch]

/-- Witness for the amended C9: a cookie-only request with a valid token. -/
theorem isLoggedIn_cookie_matches_protect_witness :
    isLoggedIn [baseAccount] cookieOnlyRequest 10 =
      match protect [baseAccount] cookieOnlyRequest 10 with
      | .authenticated u => some u
      | .rejected _ _ => none :=
  isLoggedIn_cookie_matches_protect [baseAccount] cookieOnlyRequest 10 (by rfl)

/-- C10: the stale-session check compares the token's issued-at (whole
seconds) against passwordChangedAt truncated to whole seconds (floor of
milliseconds over 1000): it reports a change after the token exactly when the
issued-at is strictly below the truncated second, so a token whose issued-at
second equals the truncated second of the change — issued within the same
clock second, up to one second before the change — passes the check. -/
theorem changedPasswordAfter_whole_second_truncation (user : Account)
    (changedMs iat : Nat) (hChanged : user.passwordChangedAt = some changedMs) :
    changedPasswordAfter user iat = decide (iat < changedMs / 1000) ∧
    changedPasswordAfter user (changedMs / 1000) = false := by
  constructor
  · simp [changedPasswordAfter, hChanged]
  · simp [changedPasswordAfter, hChanged]

/-- Witness for C10: a change at 5000 ms truncates to second 5; a token issued
at second 5 passes the check. -/
theorem changedPasswordAfter_whole_second_truncation_witness :
    changedPasswordAfter staleAccount 3 = decide ((3 : Nat) < 5000 / 1000) ∧
    changedPasswordAfter staleAccount (5000 / 1000) = false :=
  changedPasswordAfter_whole_second_truncation staleAccount 5000 3 (by rfl)

end UserMgmt
